import Mathlib

/-!
Shallow embedding of the Banelo Forecasting Django dashboard
(`dashboard/views.py` and `dashboard/models.py`).

Modelling conventions:
* Python floats are modelled as exact rationals (`ℚ`); the float literal
  `1.1` becomes `11/10` and `int(x)` becomes truncation toward zero.
* Database rows are Lean structures; a table is a `List` of rows.  Columns
  of tables that the mobile app manages (`managed = False` in Django, so
  NULLs can occur) are `Option`-valued, and the defensive `x or 0` reads in
  the views become `Option.getD _ 0`.
* Django `QuerySet.get` returns the unique match, raises `DoesNotExist`
  when there is none and `MultipleObjectsReturned` when there are several;
  it is embedded as a function into `Except String (Option _)` where the
  `error` case is the uncaught `MultipleObjectsReturned` exception.
* A request handler body that can raise is embedded as a function into
  `Except String (response × state)`; the surrounding `try/except` of the
  view becomes a total wrapper that turns `error e` into a JSON failure
  response.  Authentication, timestamps, logging and the exact interpolated
  message texts are outside the embedding.
-/

namespace Banelo

/-- Rows of the `products` table (`Product` model).  `id` is a TEXT primary
key holding UUIDs; `firebase_id` is nullable. -/
structure Product where
  id : String
  firebase_id : Option String
  name : String
  category : String
  quantity : Option ℚ
  inventory_a : Option ℚ
  inventory_b : Option ℚ
  deriving Repr, DecidableEq

/-- Rows of the `recipe_ingredients` table (`RecipeIngredient` model). -/
structure RecipeIngredient where
  ingredient_firebase_id : Option String
  ingredient_name : Option String
  quantity_needed : Option ℚ
  deriving Repr, DecidableEq

/-- Rows of the `sales` table (`Sale` model).  `order_date` is modelled as
a rational point in time measured in days. -/
structure Sale where
  product_firebase_id : Option String
  product_name : String
  quantity : Option ℚ
  order_date : Option ℚ
  deriving Repr, DecidableEq

/-- Rows of the `waste_logs` table (`WasteLog` model); only the fields the
waste handler writes are kept. -/
structure WasteLog where
  product_firebase_id : String
  product_name : String
  quantity : ℚ
  reason : String
  category : String
  deriving Repr, DecidableEq

/-- Rows of the `ml_predictions` table (`MLPrediction` model). -/
structure MLPrediction where
  product_firebase_id : String
  product_name : String
  predicted_daily_usage : ℚ
  avg_daily_usage : ℚ
  trend : ℚ
  confidence_score : ℚ
  data_points : ℕ
  deriving Repr, DecidableEq

/-- Rows of the `ml_models` table (`MLModel` model). -/
structure MLModel where
  name : String
  is_trained : Bool
  total_records : ℕ
  products_analyzed : ℕ
  predictions_generated : ℕ
  accuracy : ℕ
  model_type : String
  training_period_days : ℕ
  deriving Repr, DecidableEq

/-- Python `int(x)` on a float: truncation toward zero. -/
def truncQ (x : ℚ) : ℤ :=
  if 0 ≤ x then ⌊x⌋ else ⌈x⌉

/-- Python truthiness of an optional string: `None` and the empty string
are falsy. -/
def truthyStr : Option String → Bool
  | none => false
  | some s => s ≠ ""

/-- Python `s or d` for an optional string `s` and default `d`: the default
is used when `s` is `None` or empty. -/
def orElseStr (s : Option String) (d : String) : String :=
  match s with
  | none => d
  | some v => if v = "" then d else v

/-- Python truthiness of an optional float: `None` and `0.0` are falsy. -/
def truthyQ : Option ℚ → Bool
  | none => false
  | some q => q ≠ 0

/-- Python `s.strip()`: drop whitespace on both ends.  (`String.trim` of
the core library is extensionally the same but does not reduce in the
kernel, so the stripping is spelled out on the character list.) -/
def pyStrip (s : String) : String :=
  String.mk (((s.data.dropWhile Char.isWhitespace).reverse.dropWhile Char.isWhitespace).reverse)

/-!
### `calculate_max_servings` (views.py lines 35-110)

The recipe resolution at the top of the function is not modelled: the
`ingredients` parameter below stands for the queryset of the resolved
recipe (the list of its `RecipeIngredient` rows), and `db` for the
`products` table.
-/

/-- Line 60 of views.py:
`ingredient.ingredient_firebase_id.strip() if ingredient.ingredient_firebase_id else ''`. -/
def ingredientPid (ing : RecipeIngredient) : String :=
  match ing.ingredient_firebase_id with
  | none => ""
  | some s => pyStrip s

/-- Line 61 of views.py: `ingredient.quantity_needed or 0`. -/
def ingredientQty (ing : RecipeIngredient) : ℚ :=
  ing.quantity_needed.getD 0

/-- Body of the `for ingredient in ingredients` loop of
`calculate_max_servings`: `none` means the ingredient is skipped
(`continue`), `some m` means `m` is appended to `max_servings_list`.
The `Product.objects.get(firebase_id=...)` lookup is the unique-key
search on the products table; `DoesNotExist` appends `0`. -/
def ingredientMaxServings (db : List Product) (ing : RecipeIngredient) : Option ℤ :=
  if ingredientPid ing = "" ∨ ingredientQty ing = 0 then
    none
  else
    match db.find? (fun p => p.firebase_id = some (ingredientPid ing)) with
    | none => some 0
    | some ing_product =>
      let available_quantity := ing_product.inventory_b.getD 0
      some (if 0 < ingredientQty ing then truncQ (available_quantity / ingredientQty ing) else 0)

/-- Python `min` of a list, with the `if max_servings_list else 0` guard of
the source: an empty list yields `0`. -/
def pyListMin : List ℤ → ℤ
  | [] => 0
  | h :: t => t.foldl min h

/-- Lines 57-104 of views.py: build `max_servings_list` over the recipe
ingredients and return its minimum, `0` when the list is empty. -/
def calculate_max_servings (db : List Product) (ingredients : List RecipeIngredient) : ℤ :=
  pyListMin (ingredients.filterMap (ingredientMaxServings db))

/-- Available stock of the product an ingredient refers to, `0` when the
product row is absent (used to state the specification of `C1`). -/
def specAvailable (db : List Product) (ing : RecipeIngredient) : ℚ :=
  match db.find? (fun p => p.firebase_id = some (ingredientPid ing)) with
  | none => 0
  | some p => p.inventory_b.getD 0

/-!
### Request and response model for the JSON API handlers

A parsed request body: `productId` is `data.get('productId')`,
`quantity` is the result of `float(data.get('quantity', 0))` (which can
raise on a non-numeric value), `reason` is `data.get('reason', 'Expired')`.
A whole request is `Except String ReqData`: the `error` case is
`json.loads` raising on a malformed body.
-/

/-- Fields read out of the parsed JSON body by the transfer and waste
handlers. -/
structure ReqData where
  productId : Option String
  quantity : Except String ℚ
  reason : String

/-- The JSON responses of the handlers, reduced to the `success` flag and
the `message` string (the extra payload fields are not modelled). -/
structure ApiResp where
  success : Bool
  message : String
  deriving Repr, DecidableEq

/-- A `JsonResponse({'success': False, 'message': m})`. -/
def failureResp (m : String) : ApiResp := ⟨false, m⟩

/-- A `JsonResponse({'success': True, 'message': m, ...})`. -/
def successResp (m : String) : ApiResp := ⟨true, m⟩

/-- `Product.objects.get(Q(firebase_id=product_id) | Q(id=product_id))`:
`ok none` is `DoesNotExist` (caught by the handlers), `error` is the
uncaught `MultipleObjectsReturned` exception. -/
def getProduct (db : List Product) (pid : String) : Except String (Option Product) :=
  match db.filter (fun p => p.firebase_id = some pid ∨ p.id = pid) with
  | [] => Except.ok none
  | [p] => Except.ok (some p)
  | _ :: _ :: _ => Except.error "MultipleObjectsReturned"

/-- `product.save()`: replace the row with the same primary key. -/
def saveProduct (db : List Product) (p : Product) : List Product :=
  db.map (fun q => if q.id = p.id then p else q)

/-!
### `transfer_inventory_api` (views.py lines 1377-1433)
-/

/-- Message of line 1387 of views.py. -/
def invalidMsg : String := "Invalid product or quantity"

/-- Message of line 1393 of views.py. -/
def notFoundMsg : String := "Product not found"

/-- Message of lines 1401-1404 of views.py (the interpolated available
amount is not modelled). -/
def insufficientAMsg : String := "Insufficient stock in Inventory A"

/-- Message of lines 1421-1426 of views.py (interpolations dropped). -/
def transferOkMsg : String := "Successfully transferred to Inventory B"

/-- Body of `transfer_inventory_api` inside the outer `try`: lines
1379-1426 of views.py.  `error e` is an uncaught exception. -/
def transferBody (req : Except String ReqData) (db : List Product) :
    Except String (ApiResp × List Product) :=
  match req with
  | Except.error e => Except.error e
  | Except.ok data =>
    match data.quantity with
    | Except.error e => Except.error e
    | Except.ok transfer_qty =>
      if truthyStr data.productId = false ∨ transfer_qty ≤ 0 then
        Except.ok (failureResp invalidMsg, db)
      else
        match getProduct db (data.productId.getD "") with
        | Except.error e => Except.error e
        | Except.ok none => Except.ok (failureResp notFoundMsg, db)
        | Except.ok (some product) =>
          let inventory_a := product.inventory_a.getD 0
          let inventory_b := product.inventory_b.getD 0
          if inventory_a < transfer_qty then
            Except.ok (failureResp insufficientAMsg, db)
          else
            let new_inventory_a := inventory_a - transfer_qty
            let new_inventory_b := inventory_b + transfer_qty
            let product2 : Product :=
              { product with
                inventory_a := some new_inventory_a
                inventory_b := some new_inventory_b }
            Except.ok (successResp transferOkMsg, saveProduct db product2)

/-- The whole handler: the body wrapped in the `try/except` of lines
1378 and 1429-1433, which converts any exception into a JSON failure
response and leaves the database untouched. -/
def transfer_inventory_api (req : Except String ReqData) (db : List Product) :
    ApiResp × List Product :=
  match transferBody req db with
  | Except.ok r => r
  | Except.error e => (failureResp e, db)

/-!
### `add_waste_api` (views.py lines 1442-1506)
-/

/-- Message of lines 1466-1469 of views.py (interpolations dropped). -/
def insufficientBMsg : String := "Insufficient stock in Inventory B"

/-- Message of lines 1498-1501 of views.py (interpolations dropped). -/
def wasteOkMsg : String := "Successfully recorded waste"

/-- Body of `add_waste_api` inside the outer `try`: lines 1444-1501 of
views.py.  On success one `WasteLog` row is appended. -/
def wasteBody (req : Except String ReqData) (db : List Product) (logs : List WasteLog) :
    Except String (ApiResp × List Product × List WasteLog) :=
  match req with
  | Except.error e => Except.error e
  | Except.ok data =>
    match data.quantity with
    | Except.error e => Except.error e
    | Except.ok waste_qty =>
      if truthyStr data.productId = false ∨ waste_qty ≤ 0 then
        Except.ok (failureResp invalidMsg, db, logs)
      else
        match getProduct db (data.productId.getD "") with
        | Except.error e => Except.error e
        | Except.ok none => Except.ok (failureResp notFoundMsg, db, logs)
        | Except.ok (some product) =>
          let inventory_b := product.inventory_b.getD 0
          if inventory_b < waste_qty then
            Except.ok (failureResp insufficientBMsg, db, logs)
          else
            let new_inventory_b := inventory_b - waste_qty
            let product2 : Product := { product with inventory_b := some new_inventory_b }
            let entry : WasteLog :=
              { product_firebase_id := orElseStr product.firebase_id product.id
                product_name := product.name
                quantity := waste_qty
                reason := data.reason
                category := product.category }
            Except.ok (successResp wasteOkMsg, saveProduct db product2, logs ++ [entry])

/-- The whole handler: the body wrapped in the `try/except` of lines
1443 and 1502-1506. -/
def add_waste_api (req : Except String ReqData) (db : List Product) (logs : List WasteLog) :
    ApiResp × List Product × List WasteLog :=
  match wasteBody req db logs with
  | Except.ok r => r
  | Except.error e => (failureResp e, db, logs)

/-!
### `train_forecasting_model` (views.py lines 1835-1922)

Time is a rational `now` measured in days; `(datetime.now() - d).days`
becomes `⌊now - d⌋`.
-/

/-- Key of `MLPrediction.objects.update_or_create`: line 1879 of views.py,
`product.firebase_id or str(product.id)`. -/
def keyOf (p : Product) : String :=
  orElseStr p.firebase_id p.id

/-- Lines 1856-1859 of views.py, the per-product sales query
`Q(product_firebase_id=product.firebase_id) | Q(product_name=product.name)`.
An exact Django lookup against `None` matches the rows whose column is
NULL, so the `Option String` equality is the right translation. -/
def salesFor (sales : List Sale) (p : Product) : List Sale :=
  sales.filter (fun s => s.product_firebase_id = p.firebase_id ∨ s.product_name = p.name)

/-- Line 1870 of views.py:
`sum(s['quantity'] for s in sales_data if s['quantity'])` — the quantities
that are truthy (neither NULL nor zero) are summed. -/
def totalTruthyQty (l : List Sale) : ℚ :=
  ((l.filter (fun s => truthyQ s.quantity)).map (fun s => s.quantity.getD 0)).sum

/-- Lines 1871-1889 of views.py, the arithmetic after the earliest sale
date is known: `days = (datetime.now() - min(dates)).days or 1`,
`avg_daily_usage = total_quantity / max(days, 1)`,
`predicted_daily_usage = avg_daily_usage * 1.1`, and the row handed to
`update_or_create`. -/
def mkPrediction (now earliest total_quantity : ℚ) (key nm : String) (len : ℕ) :
    MLPrediction :=
  let days : ℤ := ⌊now - earliest⌋
  let days1 : ℤ := if days = 0 then 1 else days
  let avg_daily_usage : ℚ := total_quantity / ((max days1 1 : ℤ) : ℚ)
  let predicted_daily_usage : ℚ := avg_daily_usage * (11 / 10)
  { product_firebase_id := key
    product_name := nm
    predicted_daily_usage := predicted_daily_usage
    avg_daily_usage := avg_daily_usage
    trend := 0
    confidence_score := min (9 / 10) (1 / 2 + (len : ℚ) / 100)
    data_points := len }

/-- Lines 1861-1891 of views.py, the body of the `for product in products`
loop: `ok none` means the product is skipped (`continue`), `ok (some _)`
is the row passed to `update_or_create`, and `error` is the `ValueError`
that `min` raises on an empty sequence (every dated sale filtered out). -/
def computePrediction (now : ℚ) (sales : List Sale) (p : Product) :
    Except String (Option MLPrediction) :=
  let product_sales := salesFor sales p
  if product_sales.length < 3 then
    Except.ok none
  else if product_sales.isEmpty then
    Except.ok none
  else
    match (product_sales.filterMap (fun s => s.order_date)).min? with
    | none => Except.error "min() arg is an empty sequence"
    | some earliest =>
      Except.ok (some (mkPrediction now earliest (totalTruthyQty product_sales)
        (keyOf p) p.name product_sales.length))

/-- `MLPrediction.objects.update_or_create(product_firebase_id=key, ...)`:
replace the rows with that key, or append when none exists. -/
def upsertPred (preds : List MLPrediction) (key : String) (np : MLPrediction) :
    List MLPrediction :=
  if preds.any (fun q => q.product_firebase_id = key) then
    preds.map (fun q => if q.product_firebase_id = key then np else q)
  else
    preds ++ [np]

/-- `MLModel.objects.update_or_create(name=...)`. -/
def upsertModel (ms : List MLModel) (nm : MLModel) : List MLModel :=
  if ms.any (fun m => m.name = nm.name) then
    ms.map (fun m => if m.name = nm.name then nm else m)
  else
    ms ++ [nm]

/-- The product loop of `train_forecasting_model`, threading the
predictions table and the `predictions_created` counter.  The last
component is `some e` when an exception aborted the loop; the predictions
upserted before the exception stay (there is no enclosing transaction). -/
def trainLoop (now : ℚ) (sales : List Sale) :
    List Product → List MLPrediction → ℕ → List MLPrediction × ℕ × Option String
  | [], preds, n => (preds, n, none)
  | p :: rest, preds, n =>
    match computePrediction now sales p with
    | Except.error e => (preds, n, some e)
    | Except.ok none => trainLoop now sales rest preds n
    | Except.ok (some np) => trainLoop now sales rest (upsertPred preds (keyOf p) np) (n + 1)

/-- The database state the training handler touches. -/
structure TrainState where
  sales : List Sale
  products : List Product
  preds : List MLPrediction
  models : List MLModel
  deriving Repr, DecidableEq

/-- Message of lines 1845-1848 of views.py (interpolation dropped). -/
def trainInsufficientMsg : String :=
  "Insufficient data for training. Need at least 10 sales records."

/-- Message of lines 1910-1916 of views.py (interpolations dropped). -/
def trainOkMsg : String := "Model trained successfully!"

/-- The `MLModel` row written on a successful run (lines 1894-1906). -/
def trainedModelRow (sales_count products_count predictions_created : ℕ) : MLModel :=
  { name := "inventory_forecasting"
    is_trained := true
    total_records := sales_count
    products_analyzed := products_count
    predictions_generated := predictions_created
    accuracy := 85
    model_type := "Linear Regression (Moving Average)"
    training_period_days := 90 }

/-- `train_forecasting_model`: the guard on fewer than 10 sales records,
the product loop, the `MLModel` upsert, wrapped in the `try/except` of
lines 1837 and 1918-1922 (an exception inside the loop reaches the
`except` with the upserts made so far already saved). -/
def train_forecasting_model (now : ℚ) (st : TrainState) : ApiResp × TrainState :=
  let sales_count := st.sales.length
  if sales_count < 10 then
    (failureResp trainInsufficientMsg, st)
  else
    match trainLoop now st.sales st.products st.preds 0 with
    | (preds2, _, some e) => (failureResp e, { st with preds := preds2 })
    | (preds2, n, none) =>
      let models2 := upsertModel st.models (trainedModelRow sales_count st.products.length n)
      (successResp trainOkMsg, { st with preds := preds2, models := models2 })

/-!
### `inventory_forecasting_view` (views.py lines 1640-1825)

Only the per-product forecast metrics and the summary counters are
modelled; `products` stands for the queryset after the beverage and
water/ice exclusions, `preds` for the `ml_predictions` table.
-/

/-- Lines 1722-1729 of views.py: `MLPrediction.objects.get(...)` with the
`DoesNotExist` fallback to a zero usage. -/
def predictedUsageFor (preds : List MLPrediction) (p : Product) : ℚ :=
  match p.firebase_id with
  | none => 0
  | some fid =>
    match preds.find? (fun q => q.product_firebase_id = fid) with
    | none => 0
    | some pr => pr.predicted_daily_usage

/-- Lines 1732-1737 of views.py: `stock = float(product.quantity or 0)`
and the linear depletion estimate with the `999` sentinel. -/
def forecastDaysLeft (stock predicted_daily_usage : ℚ) : ℤ :=
  if 0 < predicted_daily_usage then truncQ (stock / predicted_daily_usage) else 999

/-- Days-left figure of one listed product. -/
def daysLeftOf (preds : List MLPrediction) (p : Product) : ℤ :=
  forecastDaysLeft (p.quantity.getD 0) (predictedUsageFor preds p)

/-- Lines 1739-1742 of views.py: the depletion date is `N/A` exactly when
`days_left < 999` fails. -/
def depletionIsNA (days_left : ℤ) : Bool :=
  !(days_left < 999)

/-- Lines 1745-1756 of views.py: the status buckets. -/
def statusOf (days_left : ℤ) : String :=
  if days_left ≤ 3 then "critical"
  else if days_left ≤ 7 then "warning"
  else "healthy"

/-- The four summary counters of the forecasting view. -/
structure Summary where
  critical : ℕ
  low : ℕ
  healthy : ℕ
  needs_reorder : ℕ
  deriving Repr, DecidableEq

/-- Lines 1745-1760 of views.py: the counter increments one product
contributes. -/
def summaryStep (preds : List MLPrediction) (s : Summary) (p : Product) : Summary :=
  let days_left := daysLeftOf preds p
  let s1 :=
    if days_left ≤ 3 then { s with critical := s.critical + 1 }
    else if days_left ≤ 7 then { s with low := s.low + 1 }
    else { s with healthy := s.healthy + 1 }
  if days_left ≤ 7 then { s1 with needs_reorder := s1.needs_reorder + 1 } else s1

/-- The summary accumulated over all listed products. -/
def forecastSummary (preds : List MLPrediction) (products : List Product) : Summary :=
  products.foldl (summaryStep preds) ⟨0, 0, 0, 0⟩

/-!
### Specification-side definitions for the training claim (C4)

These two definitions follow the words of the spec — sum of the sold
quantities, and days elapsed since the earliest sale with a minimum of
one — to be compared with what the code stores.
-/

/-- Sum of the sold quantities of a product over its sales rows (a NULL
quantity counts as zero). -/
def specTotalSold (sales : List Sale) (p : Product) : ℚ :=
  ((salesFor sales p).map (fun s => s.quantity.getD 0)).sum

/-- Whole days elapsed from the earliest sale date `d0` to `now`, with a
minimum of one day. -/
def specDaysElapsed (now d0 : ℚ) : ℤ :=
  max ⌊now - d0⌋ 1

/-!
### Concrete fixtures used by the closed-instance theorems
-/

/-- A concrete product row. -/
def wProduct : Product :=
  ⟨"p1", some "p1", "Latte", "Drinks", some 0, some 0, some 0⟩

/-- Ten sales rows, three of them for `wProduct` (dated days 0, 1 and 2,
quantities 2, 3 and 5). -/
def wSales : List Sale :=
  [⟨some "p1", "Latte", some 2, some 0⟩, ⟨some "p1", "Latte", some 3, some 1⟩,
   ⟨some "p1", "Latte", some 5, some 2⟩, ⟨some "x1", "Other", some 1, some 0⟩,
   ⟨some "x1", "Other", some 1, some 0⟩, ⟨some "x1", "Other", some 1, some 0⟩,
   ⟨some "x1", "Other", some 1, some 0⟩, ⟨some "x1", "Other", some 1, some 0⟩,
   ⟨some "x1", "Other", some 1, some 0⟩, ⟨some "x1", "Other", some 1, some 0⟩]

/-- A training state with enough data for a successful run. -/
def wState : TrainState := ⟨wSales, [wProduct], [], []⟩

/-- A training state with only five sales rows. -/
def wSmallState : TrainState := ⟨wSales.take 5, [wProduct], [], []⟩

/-- Ten sales rows for `wProduct`, none of them dated: training reaches
the `min()` call on an empty sequence and raises. -/
def wBadSales : List Sale :=
  List.replicate 10 ⟨some "p1", "Latte", some 1, none⟩

/-- The training state whose run aborts with an exception. -/
def wBadState : TrainState := ⟨wBadSales, [wProduct], [], []⟩

theorem truncQ_eq_floor {x : ℚ} (h : 0 ≤ x) : truncQ x = ⌊x⌋ := by
  simp [truncQ, h]

theorem ingredientMaxServings_of_zero (db : List Product) (ing : RecipeIngredient)
    (hq : ingredientQty ing = 0) : ingredientMaxServings db ing = none := by
  simp [ingredientMaxServings, hq]

theorem ingredientMaxServings_of_found (db : List Product) (ing : RecipeIngredient)
    (hpid : ingredientPid ing ≠ "") (hpos : 0 < ingredientQty ing)
    (p : Product) (hfind : db.find? (fun q => q.firebase_id = some (ingredientPid ing)) = some p)
    (hinv : 0 ≤ p.inventory_b.getD 0) :
    ingredientMaxServings db ing = some ⌊specAvailable db ing / ingredientQty ing⌋ := by
  have hq : ingredientQty ing ≠ 0 := ne_of_gt hpos
  rw [ingredientMaxServings, if_neg (by simp [hpid, hq]), hfind]
  rw [specAvailable, hfind]
  simp only [if_pos hpos, Option.some.injEq]
  exact truncQ_eq_floor (div_nonneg hinv (le_of_lt hpos))

theorem filterMap_servings_eq (db : List Product) :
    ∀ l : List RecipeIngredient,
      (∀ i ∈ l, ingredientQty i ≠ 0 →
        ingredientPid i ≠ "" ∧ 0 < ingredientQty i ∧
        ∃ p, db.find? (fun q => q.firebase_id = some (ingredientPid i)) = some p ∧
          0 ≤ p.inventory_b.getD 0) →
      l.filterMap (ingredientMaxServings db) =
        (l.filter (fun i => ingredientQty i ≠ 0)).map
          (fun i => ⌊specAvailable db i / ingredientQty i⌋)
  | [], _ => rfl
  | i :: rest, h => by
    have hi := h i (List.mem_cons_self i rest)
    have hr := filterMap_servings_eq db rest (fun j hj => h j (List.mem_cons_of_mem i hj))
    by_cases hq : ingredientQty i = 0
    · rw [List.filterMap_cons, ingredientMaxServings_of_zero db i hq]
      simp [List.filter_cons, hq, hr]
    · obtain ⟨hpid, hpos, p, hfind, hinv⟩ := hi hq
      rw [List.filterMap_cons, ingredientMaxServings_of_found db i hpid hpos p hfind hinv]
      simp [List.filter_cons, hq, hr]

/-- C1: for every recipe, `calculate_max_servings` returns the minimum,
over the recipe ingredients that are not skipped, of the floor of the
available stock of the ingredient product divided by the quantity needed
per serving; ingredients with zero (or missing, hence zero) quantity are
skipped, and an empty post-skip list yields zero servings (`pyListMin`
of the empty list).  The hypotheses say the surviving ingredients are
well-formed: a nonempty product id, a positive per-serving quantity, an
existing product row with non-negative stock. -/
theorem calculate_max_servings_bottleneck
    (db : List Product) (ingredients : List RecipeIngredient)
    (h : ∀ i ∈ ingredients, ingredientQty i ≠ 0 →
      ingredientPid i ≠ "" ∧ 0 < ingredientQty i ∧
      ∃ p, db.find? (fun q => q.firebase_id = some (ingredientPid i)) = some p ∧
        0 ≤ p.inventory_b.getD 0) :
    calculate_max_servings db ingredients =
      pyListMin ((ingredients.filter (fun i => ingredientQty i ≠ 0)).map
        (fun i => ⌊specAvailable db i / ingredientQty i⌋)) := by
  unfold calculate_max_servings
  rw [filterMap_servings_eq db ingredients h]

/-- Witness for C1 on a two-product database and a three-ingredient
recipe whose third ingredient has no quantity and is skipped. -/
theorem calculate_max_servings_bottleneck_witness :
    calculate_max_servings
      [⟨"u1", some "f1", "Milk", "Dairy", some 0, some 0, some 700⟩,
       ⟨"u2", some "f2", "Beans", "Dry", some 0, some 0, some 50⟩]
      [⟨some "f1", some "Milk", some 200⟩, ⟨some "f2", some "Beans", some 18⟩,
       ⟨some "f3", some "Sugar", none⟩] =
      pyListMin
        (([(⟨some "f1", some "Milk", some 200⟩ : RecipeIngredient),
           ⟨some "f2", some "Beans", some 18⟩, ⟨some "f3", some "Sugar", none⟩].filter
            (fun i => ingredientQty i ≠ 0)).map
          (fun i =>
            ⌊specAvailable
                [⟨"u1", some "f1", "Milk", "Dairy", some 0, some 0, some 700⟩,
                 ⟨"u2", some "f2", "Beans", "Dry", some 0, some 0, some 50⟩] i /
              ingredientQty i⌋)) := by
  apply calculate_max_servings_bottleneck
  intro i hi
  fin_cases hi
  · intro hq
    exact ⟨by decide, by decide,
      ⟨⟨"u1", some "f1", "Milk", "Dairy", some 0, some 0, some 700⟩, by decide, by decide⟩⟩
  · intro hq
    exact ⟨by decide, by decide,
      ⟨⟨"u2", some "f2", "Beans", "Dry", some 0, some 0, some 50⟩, by decide, by decide⟩⟩
  · intro hq
    exact absurd rfl hq

theorem transferBody_invalid (data : ReqData) (db : List Product) (q : ℚ)
    (hq : data.quantity = Except.ok q)
    (h : truthyStr data.productId = false ∨ q ≤ 0) :
    transfer_inventory_api (Except.ok data) db = (failureResp invalidMsg, db) := by
  simp [transfer_inventory_api, transferBody, hq, if_pos h]

theorem transferBody_insufficient (data : ReqData) (db : List Product)
    (pid : String) (q : ℚ) (p : Product)
    (hpid : data.productId = some pid) (hpid2 : pid ≠ "")
    (hq : data.quantity = Except.ok q) (hqpos : 0 < q)
    (hget : getProduct db pid = Except.ok (some p))
    (hlt : p.inventory_a.getD 0 < q) :
    transfer_inventory_api (Except.ok data) db = (failureResp insufficientAMsg, db) := by
  have hcond : ¬(truthyStr data.productId = false ∨ q ≤ 0) := by
    simp [truthyStr, hpid, hpid2, not_le.mpr hqpos]
  simp only [transfer_inventory_api, transferBody, hq]
  rw [if_neg hcond]
  simp only [hpid, Option.getD_some, hget, if_pos hlt]

theorem transferBody_success (data : ReqData) (db : List Product)
    (pid : String) (q : ℚ) (p : Product)
    (hpid : data.productId = some pid) (hpid2 : pid ≠ "")
    (hq : data.quantity = Except.ok q) (hqpos : 0 < q)
    (hget : getProduct db pid = Except.ok (some p))
    (hle : q ≤ p.inventory_a.getD 0) :
    transfer_inventory_api (Except.ok data) db =
      (successResp transferOkMsg,
       saveProduct db
         { p with
           inventory_a := some (p.inventory_a.getD 0 - q)
           inventory_b := some (p.inventory_b.getD 0 + q) }) := by
  have hcond : ¬(truthyStr data.productId = false ∨ q ≤ 0) := by
    simp [truthyStr, hpid, hpid2, not_le.mpr hqpos]
  simp only [transfer_inventory_api, transferBody, hq]
  rw [if_neg hcond]
  simp only [hpid, Option.getD_some, hget, if_neg (not_lt.mpr hle)]

/-- C2: with a positive requested quantity `q`, `transfer_inventory_api`
performs the move exactly when the warehouse counter `inventory_a` is at
least `q`: on success the saved row has `inventory_a` equal to the old
value minus `q` (which is non-negative) and `inventory_b` equal to the
old value plus `q`; when `inventory_a < q` the handler answers a failure
response and the table is unchanged; and a success response implies
`0 < q` and `q ≤ inventory_a`. -/
theorem transfer_inventory_api_spec (data : ReqData) (db : List Product)
    (pid : String) (q : ℚ) (p : Product)
    (hpid : data.productId = some pid) (hpid2 : pid ≠ "")
    (hq : data.quantity = Except.ok q)
    (hget : getProduct db pid = Except.ok (some p)) :
    (0 < q → q ≤ p.inventory_a.getD 0 →
      transfer_inventory_api (Except.ok data) db =
        (successResp transferOkMsg,
         saveProduct db
           { p with
             inventory_a := some (p.inventory_a.getD 0 - q)
             inventory_b := some (p.inventory_b.getD 0 + q) }) ∧
      0 ≤ p.inventory_a.getD 0 - q) ∧
    (0 < q → p.inventory_a.getD 0 < q →
      transfer_inventory_api (Except.ok data) db = (failureResp insufficientAMsg, db) ∧
      (failureResp insufficientAMsg).success = false) ∧
    ((transfer_inventory_api (Except.ok data) db).1.success = true →
      0 < q ∧ q ≤ p.inventory_a.getD 0) := by
  refine ⟨?_, ?_, ?_⟩
  · intro hqpos hle
    exact ⟨transferBody_success data db pid q p hpid hpid2 hq hqpos hget hle,
      sub_nonneg.mpr hle⟩
  · intro hqpos hlt
    exact ⟨transferBody_insufficient data db pid q p hpid hpid2 hq hqpos hget hlt, rfl⟩
  · intro hs
    by_cases hqpos : 0 < q
    · by_cases hlt : p.inventory_a.getD 0 < q
      · rw [transferBody_insufficient data db pid q p hpid hpid2 hq hqpos hget hlt] at hs
        exact absurd hs (by simp [failureResp])
      · exact ⟨hqpos, not_lt.mp hlt⟩
    · rw [transferBody_invalid data db q hq (Or.inr (not_lt.mp hqpos))] at hs
      exact absurd hs (by simp [failureResp])

/-- Witness for C2: transferring 4 units of a product with 10 warehouse
units and 2 usable units yields counters 6 and 6. -/
theorem transfer_inventory_api_spec_witness :
    transfer_inventory_api (Except.ok ⟨some "p1", Except.ok 4, "Expired"⟩)
        [⟨"p1", some "p1", "Flour", "Dry", some 0, some 10, some 2⟩] =
      (successResp transferOkMsg,
       [⟨"p1", some "p1", "Flour", "Dry", some 0, some 6, some 6⟩]) := by
  have h := (transfer_inventory_api_spec ⟨some "p1", Except.ok 4, "Expired"⟩
      [⟨"p1", some "p1", "Flour", "Dry", some 0, some 10, some 2⟩] "p1" 4
      ⟨"p1", some "p1", "Flour", "Dry", some 0, some 10, some 2⟩
      rfl (by decide) rfl rfl).1 (by norm_num) (by norm_num)
  rw [h.1]
  simp only [saveProduct, List.map, Option.getD_some, if_pos rfl]
  norm_num

/-- C7: a successful transfer conserves total stock: the updated row
satisfies `new inventory_a + new inventory_b = old inventory_a + old
inventory_b`. -/
theorem transfer_inventory_api_conserves (data : ReqData) (db : List Product)
    (pid : String) (q : ℚ) (p : Product)
    (hpid : data.productId = some pid) (hpid2 : pid ≠ "")
    (hq : data.quantity = Except.ok q) (hqpos : 0 < q)
    (hget : getProduct db pid = Except.ok (some p))
    (hle : q ≤ p.inventory_a.getD 0) :
    transfer_inventory_api (Except.ok data) db =
      (successResp transferOkMsg,
       saveProduct db
         { p with
           inventory_a := some (p.inventory_a.getD 0 - q)
           inventory_b := some (p.inventory_b.getD 0 + q) }) ∧
    (p.inventory_a.getD 0 - q) + (p.inventory_b.getD 0 + q) =
      p.inventory_a.getD 0 + p.inventory_b.getD 0 := by
  exact ⟨transferBody_success data db pid q p hpid hpid2 hq hqpos hget hle, by ring⟩

/-- Witness for C7 at the same concrete transfer as the C2 witness:
6 + 6 = 10 + 2. -/
theorem transfer_inventory_api_conserves_witness :
    transfer_inventory_api (Except.ok ⟨some "p1", Except.ok 4, "Expired"⟩)
        [⟨"p1", some "p1", "Flour", "Dry", some 0, some 10, some 2⟩] =
      (successResp transferOkMsg,
       saveProduct [⟨"p1", some "p1", "Flour", "Dry", some 0, some 10, some 2⟩]
         { (⟨"p1", some "p1", "Flour", "Dry", some 0, some 10, some 2⟩ : Product) with
           inventory_a := some ((10 : ℚ) - 4)
           inventory_b := some ((2 : ℚ) + 4) }) ∧
    ((10 : ℚ) - 4) + ((2 : ℚ) + 4) = 10 + 2 := by
  exact transfer_inventory_api_conserves ⟨some "p1", Except.ok 4, "Expired"⟩
    [⟨"p1", some "p1", "Flour", "Dry", some 0, some 10, some 2⟩] "p1" 4
    ⟨"p1", some "p1", "Flour", "Dry", some 0, some 10, some 2⟩
    rfl (by decide) rfl (by norm_num) rfl (by norm_num)

theorem wasteBody_invalid (data : ReqData) (db : List Product) (logs : List WasteLog) (q : ℚ)
    (hq : data.quantity = Except.ok q)
    (h : truthyStr data.productId = false ∨ q ≤ 0) :
    add_waste_api (Except.ok data) db logs = (failureResp invalidMsg, db, logs) := by
  simp [add_waste_api, wasteBody, hq, if_pos h]

theorem wasteBody_insufficient (data : ReqData) (db : List Product) (logs : List WasteLog)
    (pid : String) (q : ℚ) (p : Product)
    (hpid : data.productId = some pid) (hpid2 : pid ≠ "")
    (hq : data.quantity = Except.ok q) (hqpos : 0 < q)
    (hget : getProduct db pid = Except.ok (some p))
    (hlt : p.inventory_b.getD 0 < q) :
    add_waste_api (Except.ok data) db logs = (failureResp insufficientBMsg, db, logs) := by
  have hcond : ¬(truthyStr data.productId = false ∨ q ≤ 0) := by
    simp [truthyStr, hpid, hpid2, not_le.mpr hqpos]
  simp only [add_waste_api, wasteBody, hq]
  rw [if_neg hcond]
  simp only [hpid, Option.getD_some, hget, if_pos hlt]

theorem wasteBody_success (data : ReqData) (db : List Product) (logs : List WasteLog)
    (pid : String) (q : ℚ) (p : Product)
    (hpid : data.productId = some pid) (hpid2 : pid ≠ "")
    (hq : data.quantity = Except.ok q) (hqpos : 0 < q)
    (hget : getProduct db pid = Except.ok (some p))
    (hle : q ≤ p.inventory_b.getD 0) :
    add_waste_api (Except.ok data) db logs =
      (successResp wasteOkMsg,
       saveProduct db { p with inventory_b := some (p.inventory_b.getD 0 - q) },
       logs ++ [⟨orElseStr p.firebase_id p.id, p.name, q, data.reason, p.category⟩]) := by
  have hcond : ¬(truthyStr data.productId = false ∨ q ≤ 0) := by
    simp [truthyStr, hpid, hpid2, not_le.mpr hqpos]
  simp only [add_waste_api, wasteBody, hq]
  rw [if_neg hcond]
  simp only [hpid, Option.getD_some, hget, if_neg (not_lt.mpr hle)]

/-- C3: with a positive requested waste quantity `q`, `add_waste_api`
succeeds exactly when the usable counter `inventory_b` is at least `q`:
on success the saved row has `inventory_b` equal to the old value minus
`q` (which is non-negative) and exactly one `WasteLog` row with quantity
`q` is appended; when `inventory_b < q` the handler answers a failure
response and leaves both the products table and the waste log unchanged;
and a success response implies `0 < q` and `q ≤ inventory_b`. -/
theorem add_waste_api_spec (data : ReqData) (db : List Product) (logs : List WasteLog)
    (pid : String) (q : ℚ) (p : Product)
    (hpid : data.productId = some pid) (hpid2 : pid ≠ "")
    (hq : data.quantity = Except.ok q)
    (hget : getProduct db pid = Except.ok (some p)) :
    (0 < q → q ≤ p.inventory_b.getD 0 →
      add_waste_api (Except.ok data) db logs =
        (successResp wasteOkMsg,
         saveProduct db { p with inventory_b := some (p.inventory_b.getD 0 - q) },
         logs ++ [⟨orElseStr p.firebase_id p.id, p.name, q, data.reason, p.category⟩]) ∧
      0 ≤ p.inventory_b.getD 0 - q) ∧
    (0 < q → p.inventory_b.getD 0 < q →
      add_waste_api (Except.ok data) db logs = (failureResp insufficientBMsg, db, logs) ∧
      (failureResp insufficientBMsg).success = false) ∧
    ((add_waste_api (Except.ok data) db logs).1.success = true →
      0 < q ∧ q ≤ p.inventory_b.getD 0) := by
  refine ⟨?_, ?_, ?_⟩
  · intro hqpos hle
    exact ⟨wasteBody_success data db logs pid q p hpid hpid2 hq hqpos hget hle,
      sub_nonneg.mpr hle⟩
  · intro hqpos hlt
    exact ⟨wasteBody_insufficient data db logs pid q p hpid hpid2 hq hqpos hget hlt, rfl⟩
  · intro hs
    by_cases hqpos : 0 < q
    · by_cases hlt : p.inventory_b.getD 0 < q
      · rw [wasteBody_insufficient data db logs pid q p hpid hpid2 hq hqpos hget hlt] at hs
        exact absurd hs (by simp [failureResp])
      · exact ⟨hqpos, not_lt.mp hlt⟩
    · rw [wasteBody_invalid data db logs q hq (Or.inr (not_lt.mp hqpos))] at hs
      exact absurd hs (by simp [failureResp])

/-- Witness for C3: wasting 3 units of a product with 5 usable units
leaves 2 usable units and appends one log entry of quantity 3. -/
theorem add_waste_api_spec_witness :
    add_waste_api (Except.ok ⟨some "p1", Except.ok 3, "Spoiled"⟩)
        [⟨"p1", some "p1", "Milk", "Dairy", some 0, some 10, some 5⟩] [] =
      (successResp wasteOkMsg,
       [⟨"p1", some "p1", "Milk", "Dairy", some 0, some 10, some 2⟩],
       [⟨"p1", "Milk", 3, "Spoiled", "Dairy"⟩]) := by
  have h := (add_waste_api_spec ⟨some "p1", Except.ok 3, "Spoiled"⟩
      [⟨"p1", some "p1", "Milk", "Dairy", some 0, some 10, some 5⟩] [] "p1" 3
      ⟨"p1", some "p1", "Milk", "Dairy", some 0, some 10, some 5⟩
      rfl (by decide) rfl rfl).1 (by norm_num) (by norm_num)
  rw [h.1]
  simp only [saveProduct, List.map, Option.getD_some, if_pos rfl, List.nil_append,
    orElseStr]
  norm_num

/-- C6: the days-until-depletion figure of the forecasting view is the
linear estimate: with a stored prediction of positive daily usage the
figure is the floor of stock over predicted usage; with a zero predicted
usage (in particular when no prediction row exists, which the third
conjunct reduces to the zero case) the figure is the sentinel `999` and
the depletion date is reported as `N/A`. -/
theorem inventory_forecasting_days_left (preds : List MLPrediction) (p : Product) :
    (∀ fid pr, p.firebase_id = some fid →
      preds.find? (fun q => q.product_firebase_id = fid) = some pr →
      0 < pr.predicted_daily_usage → 0 ≤ p.quantity.getD 0 →
      daysLeftOf preds p = ⌊p.quantity.getD 0 / pr.predicted_daily_usage⌋) ∧
    (predictedUsageFor preds p = 0 →
      daysLeftOf preds p = 999 ∧ depletionIsNA (daysLeftOf preds p) = true) ∧
    ((p.firebase_id = none ∨
        ∃ fid, p.firebase_id = some fid ∧
          preds.find? (fun q => q.product_firebase_id = fid) = none) →
      predictedUsageFor preds p = 0) := by
  refine ⟨?_, ?_, ?_⟩
  · intro fid pr hfid hfind hpos hstock
    have hpu : predictedUsageFor preds p = pr.predicted_daily_usage := by
      simp [predictedUsageFor, hfid, hfind]
    rw [daysLeftOf, hpu, forecastDaysLeft, if_pos hpos]
    exact truncQ_eq_floor (div_nonneg hstock (le_of_lt hpos))
  · intro hz
    rw [daysLeftOf, hz, forecastDaysLeft, if_neg (lt_irrefl 0)]
    exact ⟨rfl, by decide⟩
  · rintro (hn | ⟨fid, hfid, hfind⟩)
    · simp [predictedUsageFor, hn]
    · simp [predictedUsageFor, hfid, hfind]

/-- Witness for C6: stock 7 and predicted daily usage 2 give a days-left
figure of 3, and a product without prediction row gets usage 0 and the
999 sentinel. -/
theorem inventory_forecasting_days_left_witness :
    daysLeftOf [⟨"f1", "Milk", 2, 2, 0, 1 / 2, 5⟩]
        ⟨"u1", some "f1", "Milk", "Dairy", some 7, some 0, some 0⟩ = 3 ∧
    daysLeftOf [⟨"f1", "Milk", 2, 2, 0, 1 / 2, 5⟩]
        ⟨"u2", some "f2", "Tea", "Dry", some 7, some 0, some 0⟩ = 999 := by
  constructor
  · have h := (inventory_forecasting_days_left [⟨"f1", "Milk", 2, 2, 0, 1 / 2, 5⟩]
      ⟨"u1", some "f1", "Milk", "Dairy", some 7, some 0, some 0⟩).1
      "f1" ⟨"f1", "Milk", 2, 2, 0, 1 / 2, 5⟩ rfl rfl (by norm_num) (by norm_num)
    rw [h]
    norm_num
  · have hz := (inventory_forecasting_days_left [⟨"f1", "Milk", 2, 2, 0, 1 / 2, 5⟩]
      ⟨"u2", some "f2", "Tea", "Dry", some 7, some 0, some 0⟩).2.2
      (Or.inr ⟨"f2", rfl, by decide⟩)
    exact ((inventory_forecasting_days_left [⟨"f1", "Milk", 2, 2, 0, 1 / 2, 5⟩]
      ⟨"u2", some "f2", "Tea", "Dry", some 7, some 0, some 0⟩).2.1 hz).1

theorem summaryStep_critical (preds : List MLPrediction) (s : Summary) (p : Product) :
    (summaryStep preds s p).critical =
      s.critical + if daysLeftOf preds p ≤ 3 then 1 else 0 := by
  simp only [summaryStep]
  split_ifs <;> rfl

theorem summaryStep_low (preds : List MLPrediction) (s : Summary) (p : Product) :
    (summaryStep preds s p).low =
      s.low + if 3 < daysLeftOf preds p ∧ daysLeftOf preds p ≤ 7 then 1 else 0 := by
  simp only [summaryStep]
  split_ifs with h3 h7 h7 <;> simp_all <;> omega

theorem summaryStep_healthy (preds : List MLPrediction) (s : Summary) (p : Product) :
    (summaryStep preds s p).healthy =
      s.healthy + if 7 < daysLeftOf preds p then 1 else 0 := by
  simp only [summaryStep]
  split_ifs with h3 h7 h7 <;> simp_all <;> omega

theorem summaryStep_reorder (preds : List MLPrediction) (s : Summary) (p : Product) :
    (summaryStep preds s p).needs_reorder =
      s.needs_reorder + if daysLeftOf preds p ≤ 7 then 1 else 0 := by
  simp only [summaryStep]
  split_ifs <;> rfl

theorem foldl_summary_critical (preds : List MLPrediction) :
    ∀ (l : List Product) (s : Summary),
      (l.foldl (summaryStep preds) s).critical =
        s.critical + l.countP (fun p => decide (daysLeftOf preds p ≤ 3))
  | [], s => by simp
  | p :: rest, s => by
    rw [List.foldl_cons, foldl_summary_critical preds rest, summaryStep_critical,
      List.countP_cons]
    by_cases h3 : daysLeftOf preds p ≤ 3 <;> simp [h3] <;> omega

theorem foldl_summary_low (preds : List MLPrediction) :
    ∀ (l : List Product) (s : Summary),
      (l.foldl (summaryStep preds) s).low =
        s.low + l.countP
          (fun p => decide (3 < daysLeftOf preds p) && decide (daysLeftOf preds p ≤ 7))
  | [], s => by simp
  | p :: rest, s => by
    rw [List.foldl_cons, foldl_summary_low preds rest, summaryStep_low, List.countP_cons]
    by_cases h3 : 3 < daysLeftOf preds p <;> by_cases h7 : daysLeftOf preds p ≤ 7 <;>
      simp [h3, h7] <;> omega

theorem foldl_summary_healthy (preds : List MLPrediction) :
    ∀ (l : List Product) (s : Summary),
      (l.foldl (summaryStep preds) s).healthy =
        s.healthy + l.countP (fun p => decide (7 < daysLeftOf preds p))
  | [], s => by simp
  | p :: rest, s => by
    rw [List.foldl_cons, foldl_summary_healthy preds rest, summaryStep_healthy,
      List.countP_cons]
    by_cases h7 : 7 < daysLeftOf preds p <;> simp [h7] <;> omega

theorem foldl_summary_reorder (preds : List MLPrediction) :
    ∀ (l : List Product) (s : Summary),
      (l.foldl (summaryStep preds) s).needs_reorder =
        s.needs_reorder + l.countP (fun p => decide (daysLeftOf preds p ≤ 7))
  | [], s => by simp
  | p :: rest, s => by
    rw [List.foldl_cons, foldl_summary_reorder preds rest, summaryStep_reorder,
      List.countP_cons]
    by_cases h7 : daysLeftOf preds p ≤ 7 <;> simp [h7] <;> omega

theorem countP_days_partition (preds : List MLPrediction) :
    ∀ l : List Product,
      l.countP (fun p => decide (daysLeftOf preds p ≤ 3)) +
        l.countP
          (fun p => decide (3 < daysLeftOf preds p) && decide (daysLeftOf preds p ≤ 7)) +
        l.countP (fun p => decide (7 < daysLeftOf preds p)) = l.length
  | [] => rfl
  | p :: rest => by
    have ih := countP_days_partition preds rest
    simp only [List.countP_cons, List.length_cons]
    by_cases h3 : daysLeftOf preds p ≤ 3
    · have h7 : daysLeftOf preds p ≤ 7 := le_trans h3 (by norm_num)
      simp [h3, h7, not_lt.mpr h3, not_lt.mpr h7] <;> omega
    · by_cases h7 : daysLeftOf preds p ≤ 7
      · simp [h3, h7, not_le.mp h3, not_lt.mpr h7] <;> omega
      · simp [h3, h7, not_le.mp h7] <;> omega

/-- C9: in the forecasting view every listed product falls in exactly one
status bucket, characterized by its days-left figure (`critical` iff at
most 3, `warning` iff between 4 and 7, `healthy` iff more than 7); the
critical, low and healthy counters sum to the number of listed products,
and `needs_reorder` counts exactly the products whose days-left figure is
at most 7. -/
theorem inventory_forecasting_summary (preds : List MLPrediction) (products : List Product) :
    (forecastSummary preds products).critical + (forecastSummary preds products).low +
        (forecastSummary preds products).healthy = products.length ∧
    (forecastSummary preds products).needs_reorder =
      (products.filter (fun p => daysLeftOf preds p ≤ 7)).length ∧
    ∀ p ∈ products,
      (statusOf (daysLeftOf preds p) = "critical" ↔ daysLeftOf preds p ≤ 3) ∧
      (statusOf (daysLeftOf preds p) = "warning" ↔
        3 < daysLeftOf preds p ∧ daysLeftOf preds p ≤ 7) ∧
      (statusOf (daysLeftOf preds p) = "healthy" ↔ 7 < daysLeftOf preds p) := by
  refine ⟨?_, ?_, ?_⟩
  · rw [forecastSummary, foldl_summary_critical, foldl_summary_low, foldl_summary_healthy]
    simpa using countP_days_partition preds products
  · rw [forecastSummary, foldl_summary_reorder]
    simp [List.countP_eq_length_filter]
  · intro p _
    by_cases h3 : daysLeftOf preds p ≤ 3
    · have h7 : daysLeftOf preds p ≤ 7 := le_trans h3 (by norm_num)
      simp [statusOf, h3, h7, not_lt.mpr h3]
    · by_cases h7 : daysLeftOf preds p ≤ 7
      · simp [statusOf, h3, h7, not_le.mp h3, not_lt.mpr h7]
      · simp [statusOf, h3, h7, not_le.mp h7]

/-- Witness for C9 on one product in each bucket: stock 7 with usage 2
(3 days, critical), stock 10 with usage 2 (5 days, warning), and no
prediction (999 days, healthy). -/
theorem inventory_forecasting_summary_witness :
    (forecastSummary
        [⟨"f1", "Milk", 2, 2, 0, 1 / 2, 5⟩, ⟨"f2", "Tea", 2, 2, 0, 1 / 2, 5⟩]
        [⟨"u1", some "f1", "Milk", "Dairy", some 7, some 0, some 0⟩,
         ⟨"u2", some "f2", "Tea", "Dry", some 10, some 0, some 0⟩,
         ⟨"u3", some "f3", "Salt", "Dry", some 10, some 0, some 0⟩]).critical +
      (forecastSummary
        [⟨"f1", "Milk", 2, 2, 0, 1 / 2, 5⟩, ⟨"f2", "Tea", 2, 2, 0, 1 / 2, 5⟩]
        [⟨"u1", some "f1", "Milk", "Dairy", some 7, some 0, some 0⟩,
         ⟨"u2", some "f2", "Tea", "Dry", some 10, some 0, some 0⟩,
         ⟨"u3", some "f3", "Salt", "Dry", some 10, some 0, some 0⟩]).low +
      (forecastSummary
        [⟨"f1", "Milk", 2, 2, 0, 1 / 2, 5⟩, ⟨"f2", "Tea", 2, 2, 0, 1 / 2, 5⟩]
        [⟨"u1", some "f1", "Milk", "Dairy", some 7, some 0, some 0⟩,
         ⟨"u2", some "f2", "Tea", "Dry", some 10, some 0, some 0⟩,
         ⟨"u3", some "f3", "Salt", "Dry", some 10, some 0, some 0⟩]).healthy = 3 :=
  (inventory_forecasting_summary
    [⟨"f1", "Milk", 2, 2, 0, 1 / 2, 5⟩, ⟨"f2", "Tea", 2, 2, 0, 1 / 2, 5⟩]
    [⟨"u1", some "f1", "Milk", "Dairy", some 7, some 0, some 0⟩,
     ⟨"u2", some "f2", "Tea", "Dry", some 10, some 0, some 0⟩,
     ⟨"u3", some "f3", "Salt", "Dry", some 10, some 0, some 0⟩]).1

theorem totalTruthyQty_eq_specTotalSold (sales : List Sale) (p : Product) :
    totalTruthyQty (salesFor sales p) = specTotalSold sales p := by
  rw [totalTruthyQty, specTotalSold]
  induction salesFor sales p with
  | nil => rfl
  | cons s rest ih =>
    rw [List.map_cons, List.sum_cons, ← ih, List.filter_cons]
    by_cases hs : truthyQ s.quantity
    · simp [hs]
    · have hz : s.quantity.getD 0 = 0 := by
        cases hq : s.quantity with
        | none => rfl
        | some v =>
          rw [truthyQ.eq_def, hq] at hs
          simpa using hs
      simp [hs, hz]

theorem pyDays_eq_specDays (d : ℤ) : max (if d = 0 then 1 else d) 1 = max d 1 := by
  by_cases hd : d = 0
  · simp [hd]
  · simp [hd]

theorem computePrediction_none (now : ℚ) (sales : List Sale) (p : Product)
    (h : computePrediction now sales p = Except.ok none) :
    (salesFor sales p).length < 3 := by
  by_cases h3 : (salesFor sales p).length < 3
  · exact h3
  · exfalso
    rw [computePrediction] at h
    have hne : ¬((salesFor sales p).isEmpty = true) := by
      cases he : salesFor sales p with
      | nil => rw [he] at h3; exact absurd (by simp) h3
      | cons a l => simp
    rw [if_neg h3, if_neg hne] at h
    cases hm : ((salesFor sales p).filterMap (fun s => s.order_date)).min? with
    | none => rw [hm] at h; exact Except.noConfusion h
    | some d0 => rw [hm] at h; simp at h

theorem mkPrediction_key (now earliest total_quantity : ℚ) (key nm : String) (len : ℕ) :
    (mkPrediction now earliest total_quantity key nm len).product_firebase_id = key := rfl

theorem mkPrediction_avg (now earliest total_quantity : ℚ) (key nm : String) (len : ℕ) :
    (mkPrediction now earliest total_quantity key nm len).avg_daily_usage =
      total_quantity /
        ((max (if ⌊now - earliest⌋ = 0 then 1 else ⌊now - earliest⌋) 1 : ℤ) : ℚ) := rfl

theorem mkPrediction_predicted (now earliest total_quantity : ℚ) (key nm : String) (len : ℕ) :
    (mkPrediction now earliest total_quantity key nm len).predicted_daily_usage =
      (mkPrediction now earliest total_quantity key nm len).avg_daily_usage * (11 / 10) := rfl

theorem computePrediction_some (now : ℚ) (sales : List Sale) (p : Product)
    (np : MLPrediction) (h : computePrediction now sales p = Except.ok (some np)) :
    ∃ d0, ((salesFor sales p).filterMap (fun s => s.order_date)).min? = some d0 ∧
      np = mkPrediction now d0 (totalTruthyQty (salesFor sales p))
        (keyOf p) p.name (salesFor sales p).length := by
  rw [computePrediction] at h
  by_cases h3 : (salesFor sales p).length < 3
  · rw [if_pos h3] at h; simp at h
  · rw [if_neg h3] at h
    by_cases he : (salesFor sales p).isEmpty
    · rw [if_pos he] at h; simp at h
    · rw [if_neg he] at h
      cases hm : ((salesFor sales p).filterMap (fun s => s.order_date)).min? with
      | none => rw [hm] at h; exact Except.noConfusion h
      | some d0 =>
        rw [hm] at h
        exact ⟨d0, rfl, ((Option.some.injEq _ _).mp ((Except.ok.injEq _ _).mp h)).symm⟩

theorem filter_map_replace (k key : String) (np : MLPrediction)
    (hnp : np.product_firebase_id = key) (hne : key ≠ k) :
    ∀ preds : List MLPrediction,
      ((preds.map (fun q => if q.product_firebase_id = key then np else q)).filter
          (fun q => q.product_firebase_id = k)) =
        preds.filter (fun q => q.product_firebase_id = k)
  | [] => rfl
  | q :: rest => by
    rw [List.map_cons, List.filter_cons, List.filter_cons]
    by_cases hq : q.product_firebase_id = key
    · rw [if_pos hq]
      have hd : ¬((decide (key = k)) = true) := by simp [hne]
      rw [hnp, hq, if_neg hd, if_neg hd]
      exact filter_map_replace k key np hnp hne rest
    · rw [if_neg hq]
      rw [filter_map_replace k key np hnp hne rest]

theorem upsertPred_filter_ne (preds : List MLPrediction) (key : String)
    (np : MLPrediction) (k : String)
    (hnp : np.product_firebase_id = key) (hne : key ≠ k) :
    ((upsertPred preds key np).filter (fun q => q.product_firebase_id = k)) =
      preds.filter (fun q => q.product_firebase_id = k) := by
  rw [upsertPred]
  by_cases ha : preds.any (fun q => q.product_firebase_id = key)
  · rw [if_pos ha]
    exact filter_map_replace k key np hnp hne preds
  · rw [if_neg ha, List.filter_append]
    have : ([np].filter (fun q => q.product_firebase_id = k)) = [] := by
      simp [List.filter_cons, List.filter_nil, hnp, hne]
    rw [this, List.append_nil]

theorem filter_key_nil_of_any_false (key : String) :
    ∀ preds : List MLPrediction,
      preds.any (fun q => q.product_firebase_id = key) = false →
      preds.filter (fun q => q.product_firebase_id = key) = []
  | [], _ => rfl
  | q :: rest, h => by
    rw [List.any_cons] at h
    have hq : ¬(q.product_firebase_id = key) := by
      intro hk
      simp [hk] at h
    have hrest := filter_key_nil_of_any_false key rest (by simpa [hq] using h)
    rw [List.filter_cons, if_neg (by simp [hq]), hrest]

theorem filter_map_replace_of_nil (key : String) (np : MLPrediction)
    (hnp : np.product_firebase_id = key) :
    ∀ preds : List MLPrediction,
      preds.filter (fun q => q.product_firebase_id = key) = [] →
      ((preds.map (fun q => if q.product_firebase_id = key then np else q)).filter
        (fun q => q.product_firebase_id = key)) = []
  | [], _ => rfl
  | q :: rest, h => by
    rw [List.filter_cons] at h
    by_cases hq : q.product_firebase_id = key
    · rw [if_pos (by simp [hq])] at h
      exact List.noConfusion h
    · rw [if_neg (by simp [hq])] at h
      rw [List.map_cons, if_neg hq, List.filter_cons, if_neg (by simp [hq])]
      exact filter_map_replace_of_nil key np hnp rest h

theorem map_replace_filter_single (key : String) (np : MLPrediction)
    (hnp : np.product_firebase_id = key) :
    ∀ preds : List MLPrediction,
      preds.any (fun q => q.product_firebase_id = key) = true →
      (preds.filter (fun q => q.product_firebase_id = key)).length ≤ 1 →
      ((preds.map (fun q => if q.product_firebase_id = key then np else q)).filter
        (fun q => q.product_firebase_id = key)) = [np]
  | [], ha, _ => by simp at ha
  | q :: rest, ha, hlen => by
    by_cases hq : q.product_firebase_id = key
    · have hrest : rest.filter (fun q => q.product_firebase_id = key) = [] := by
        rw [List.filter_cons, if_pos (by simp [hq])] at hlen
        rw [List.length_cons] at hlen
        have : (rest.filter (fun q => q.product_firebase_id = key)).length = 0 := by omega
        exact List.eq_nil_of_length_eq_zero this
      rw [List.map_cons, if_pos hq, List.filter_cons, if_pos (by simp [hnp])]
      rw [filter_map_replace_of_nil key np hnp rest hrest]
    · rw [List.any_cons] at ha
      have ha' : rest.any (fun q => q.product_firebase_id = key) = true := by
        simpa [hq] using ha
      have hlen' : (rest.filter (fun q => q.product_firebase_id = key)).length ≤ 1 := by
        rw [List.filter_cons, if_neg (by simp [hq])] at hlen
        exact hlen
      rw [List.map_cons, if_neg hq, List.filter_cons, if_neg (by simp [hq])]
      exact map_replace_filter_single key np hnp rest ha' hlen'

theorem upsertPred_filter_eq (preds : List MLPrediction) (key : String) (np : MLPrediction)
    (hnp : np.product_firebase_id = key)
    (hlen : (preds.filter (fun q => q.product_firebase_id = key)).length ≤ 1) :
    (upsertPred preds key np).filter (fun q => q.product_firebase_id = key) = [np] := by
  rw [upsertPred]
  by_cases ha : preds.any (fun q => q.product_firebase_id = key)
  · rw [if_pos ha]
    exact map_replace_filter_single key np hnp preds ha hlen
  · rw [if_neg ha, List.filter_append,
      filter_key_nil_of_any_false key preds (Bool.not_eq_true _ ▸ (by simpa using ha))]
    simp [List.filter_cons, hnp]

theorem trainLoop_append (now : ℚ) (sales : List Sale) :
    ∀ (xs ys : List Product) (preds : List MLPrediction) (n : ℕ),
      trainLoop now sales (xs ++ ys) preds n =
        match trainLoop now sales xs preds n with
        | (pr, m, none) => trainLoop now sales ys pr m
        | (pr, m, some e) => (pr, m, some e)
  | [], ys, preds, n => by simp [trainLoop]
  | p :: rest, ys, preds, n => by
    rw [List.cons_append]
    cases hc : computePrediction now sales p with
    | error e => simp only [trainLoop, hc]
    | ok o =>
      cases o with
      | none =>
        simp only [trainLoop, hc]
        exact trainLoop_append now sales rest ys preds n
      | some np =>
        simp only [trainLoop, hc]
        exact trainLoop_append now sales rest ys (upsertPred preds (keyOf p) np) (n + 1)

theorem trainLoop_filter_preserve (now : ℚ) (sales : List Sale) (k : String) :
    ∀ (prods : List Product) (preds : List MLPrediction) (n : ℕ),
      (∀ p ∈ prods, keyOf p = k → (salesFor sales p).length < 3) →
      ((trainLoop now sales prods preds n).1.filter (fun q => q.product_firebase_id = k)) =
        preds.filter (fun q => q.product_firebase_id = k)
  | [], preds, n, _ => rfl
  | p :: rest, preds, n, h => by
    have hrest := fun preds2 n2 =>
      trainLoop_filter_preserve now sales k rest preds2 n2
        (fun p2 hp2 => h p2 (List.mem_cons_of_mem p hp2))
    cases hc : computePrediction now sales p with
    | error e => simp only [trainLoop, hc]
    | ok o =>
      cases o with
      | none =>
        simp only [trainLoop, hc]
        exact hrest preds n
      | some np =>
        obtain ⟨d0, _, hnp⟩ := computePrediction_some now sales p np hc
        have hkne : keyOf p ≠ k := by
          intro hk
          have hlt := h p (List.mem_cons_self p rest) hk
          rw [computePrediction, if_pos hlt] at hc
          simp at hc
        simp only [trainLoop, hc]
        rw [hrest (upsertPred preds (keyOf p) np) (n + 1)]
        exact upsertPred_filter_ne preds (keyOf p) np k (by rw [hnp]; rfl) hkne

/-- C8: `train_forecasting_model` refuses to run on fewer than 10 sales
rows, returning a failure response and leaving the whole state (hence the
`ml_predictions` and `ml_models` tables) untouched; and a product with
fewer than 3 sales rows is skipped by the training loop: the prediction
rows under its key are exactly what they were before (the second
hypothesis says no other product writes under the same key). -/
theorem train_forecasting_model_guards (now : ℚ) (st : TrainState) :
    (st.sales.length < 10 →
      train_forecasting_model now st = (failureResp trainInsufficientMsg, st)) ∧
    (∀ p ∈ st.products, (salesFor st.sales p).length < 3 →
      (∀ p2 ∈ st.products, keyOf p2 = keyOf p → (salesFor st.sales p2).length < 3) →
      ((train_forecasting_model now st).2.preds.filter
          (fun q => q.product_firebase_id = keyOf p)) =
        st.preds.filter (fun q => q.product_firebase_id = keyOf p)) := by
  constructor
  · intro h
    rw [train_forecasting_model, if_pos h]
  · intro p _ _ hkeys
    by_cases h10 : st.sales.length < 10
    · rw [train_forecasting_model, if_pos h10]
    · rw [train_forecasting_model, if_neg h10]
      have hfil := trainLoop_filter_preserve now st.sales (keyOf p) st.products st.preds 0 hkeys
      rcases htl : trainLoop now st.sales st.products st.preds 0 with ⟨pr, m, e⟩
      rw [htl] at hfil
      cases e with
      | none => simpa using hfil
      | some err => simpa using hfil

/-- C4: after a successful training run, the stored prediction row of a
processed product (one with at least 3 sales rows, positioned anywhere in
the product list, with no other product writing under its key) is exactly
the moving-average row: its `avg_daily_usage` equals the sum of the sold
quantities divided by the days elapsed since the earliest sale (minimum
one day), and its `predicted_daily_usage` is that average times `1.1`. -/
theorem train_forecasting_model_moving_average
    (now : ℚ) (st : TrainState) (l1 l2 : List Product) (p : Product) (d0 : ℚ)
    (hsplit : st.products = l1 ++ p :: l2)
    (h1 : ∀ p2 ∈ l1, keyOf p2 ≠ keyOf p)
    (h2 : ∀ p2 ∈ l2, keyOf p2 ≠ keyOf p)
    (h3 : ¬((salesFor st.sales p).length < 3))
    (hmin : ((salesFor st.sales p).filterMap (fun s => s.order_date)).min? = some d0)
    (h10 : ¬(st.sales.length < 10))
    (hdup : (st.preds.filter (fun q => q.product_firebase_id = keyOf p)).length ≤ 1)
    (hsucc : (train_forecasting_model now st).1.success = true) :
    ((train_forecasting_model now st).2.preds.filter
        (fun q => q.product_firebase_id = keyOf p)) =
      [mkPrediction now d0 (totalTruthyQty (salesFor st.sales p)) (keyOf p) p.name
        (salesFor st.sales p).length] ∧
    (mkPrediction now d0 (totalTruthyQty (salesFor st.sales p)) (keyOf p) p.name
        (salesFor st.sales p).length).avg_daily_usage =
      specTotalSold st.sales p / ((specDaysElapsed now d0 : ℤ) : ℚ) ∧
    (mkPrediction now d0 (totalTruthyQty (salesFor st.sales p)) (keyOf p) p.name
        (salesFor st.sales p).length).predicted_daily_usage =
      (mkPrediction now d0 (totalTruthyQty (salesFor st.sales p)) (keyOf p) p.name
        (salesFor st.sales p).length).avg_daily_usage * (11 / 10) := by
  refine ⟨?_, ?_, mkPrediction_predicted now d0 _ (keyOf p) p.name _⟩
  · rw [train_forecasting_model, if_neg h10] at hsucc ⊢
    rcases htl : trainLoop now st.sales st.products st.preds 0 with ⟨pr, m, e⟩
    cases e with
    | some err =>
      rw [htl] at hsucc
      simp [failureResp] at hsucc
    | none =>
      simp only []
      rw [hsplit, trainLoop_append] at htl
      rcases ht1 : trainLoop now st.sales l1 st.preds 0 with ⟨pr1, m1, e1⟩
      rw [ht1] at htl
      cases e1 with
      | some err1 => simp at htl
      | none =>
        have hfil1 : pr1.filter (fun q => q.product_firebase_id = keyOf p) =
            st.preds.filter (fun q => q.product_firebase_id = keyOf p) := by
          have := trainLoop_filter_preserve now st.sales (keyOf p) l1 st.preds 0
            (fun p2 hp2 hk => absurd hk (h1 p2 hp2))
          rw [ht1] at this
          exact this
        cases hc : computePrediction now st.sales p with
        | error err2 => simp [trainLoop, hc] at htl
        | ok o =>
          cases o with
          | none => exact absurd (computePrediction_none now st.sales p hc) h3
          | some np =>
            obtain ⟨d0x, hmx, hnp⟩ := computePrediction_some now st.sales p np hc
            have hd0 : d0x = d0 := by
              rw [hmx] at hmin
              exact ((Option.some.injEq _ _).mp hmin)
            simp only [trainLoop, hc] at htl
            have hpr : (trainLoop now st.sales l2
                (upsertPred pr1 (keyOf p) np) (m1 + 1)).1 = pr := by rw [htl]
            have hfil2 := trainLoop_filter_preserve now st.sales (keyOf p) l2
              (upsertPred pr1 (keyOf p) np) (m1 + 1)
              (fun p2 hp2 hk => absurd hk (h2 p2 hp2))
            rw [hpr] at hfil2
            have hup := upsertPred_filter_eq pr1 (keyOf p) np
              (by rw [hnp]; exact mkPrediction_key now d0x _ (keyOf p) p.name _)
              (by rw [hfil1]; exact hdup)
            rw [hfil2, hup, hnp, hd0]
  · rw [mkPrediction_avg, totalTruthyQty_eq_specTotalSold, pyDays_eq_specDays]
    rfl

/-- Witness for C4: the product with sales of quantities 2, 3 and 5 over
days 0 to 2 (training at day 10) gets exactly one stored prediction row,
the moving-average one. -/
theorem train_forecasting_model_moving_average_witness :
    ((train_forecasting_model 10 wState).2.preds.filter
        (fun q => q.product_firebase_id = keyOf wProduct)) =
      [mkPrediction 10 0 (totalTruthyQty (salesFor wSales wProduct)) (keyOf wProduct)
        wProduct.name (salesFor wSales wProduct).length] :=
  (train_forecasting_model_moving_average 10 wState [] [] wProduct 0 rfl
    (by intro p2 hp2; simp at hp2) (by intro p2 hp2; simp at hp2)
    (by decide) (by decide) (by decide) (by decide) (by decide)).1

/-- Witness for C8: with only five sales rows the training handler
refuses and the state is returned unchanged. -/
theorem train_forecasting_model_guards_witness :
    train_forecasting_model 10 wSmallState = (failureResp trainInsufficientMsg, wSmallState) :=
  (train_forecasting_model_guards 10 wSmallState).1 (by decide)

/-- C5: the transfer, waste and train handlers convert every exception of
their bodies into a JSON failure response carrying `success = false` and
the exception message, instead of propagating it. -/
theorem api_handlers_catch
    (req : Except String ReqData) (db : List Product) (logs : List WasteLog)
    (now : ℚ) (st : TrainState) :
    (∀ e, transferBody req db = Except.error e →
      transfer_inventory_api req db = (failureResp e, db) ∧
      (failureResp e).success = false) ∧
    (∀ e, wasteBody req db logs = Except.error e →
      add_waste_api req db logs = (failureResp e, db, logs) ∧
      (failureResp e).success = false) ∧
    (∀ e, ¬(st.sales.length < 10) →
      (trainLoop now st.sales st.products st.preds 0).2.2 = some e →
      (train_forecasting_model now st).1 = failureResp e ∧
      (failureResp e).success = false) := by
  refine ⟨?_, ?_, ?_⟩
  · intro e he
    rw [transfer_inventory_api, he]
    exact ⟨rfl, rfl⟩
  · intro e he
    rw [add_waste_api, he]
    exact ⟨rfl, rfl⟩
  · intro e h10 htl
    rw [train_forecasting_model, if_neg h10]
    rcases h2 : trainLoop now st.sales st.products st.preds 0 with ⟨pr, m, e2⟩
    rw [h2] at htl
    cases e2 with
    | none => exact Option.noConfusion htl
    | some e3 =>
      have he3 : e3 = e := Option.some.inj htl
      rw [he3]
      exact ⟨rfl, rfl⟩

/-- Witness for C5: a malformed JSON body makes the transfer and waste
handlers answer a failure response carrying the parse error, and the
dateless-sales state makes the train handler answer the `min()` error. -/
theorem api_handlers_catch_witness :
    transfer_inventory_api (Except.error "boom") [] = (failureResp "boom", ([] : List Product)) ∧
    add_waste_api (Except.error "boom") [] [] =
      (failureResp "boom", ([] : List Product), ([] : List WasteLog)) ∧
    (train_forecasting_model 0 wBadState).1 = failureResp "min() arg is an empty sequence" := by
  have h := api_handlers_catch (Except.error "boom") [] [] 0 wBadState
  exact ⟨(h.1 "boom" rfl).1, (h.2.1 "boom" rfl).1,
    (h.2.2 "min() arg is an empty sequence" (by decide) (by decide)).1⟩

end Banelo
